import Mathlib

/-!
Verification of the session classification and completion-confidence engine of
`claude-usage-analyzer/scripts/analyze_sessions.py`.

The Python functions are shallowly embedded as executable Lean definitions:

* strings are Lean `String`s; lower-casing and substring tests are modelled on
  `List Char` (`lc`, `subIn`);
* the fixed regular expressions of the source (word-boundary word patterns,
  `\s+`, `\s*`, `.*`, an optional character) are modelled by a small matcher
  (`Rx`, `matchHere`, `rxSearch`) with full backtracking, which has exactly the
  "does the pattern occur somewhere" semantics of Python `re.search`;
* Python floats (session durations) are modelled as exact rationals `ℚ`;
* integer division comparisons `a / b > k` (with `b > 0`) are modelled by the
  equivalent exact form `k * b < a`;
* dictionaries returned by the source functions become structures whose fields
  keep the dictionary keys; presentation-only fields (free-text descriptions,
  truncated evidence strings) are omitted, since no downstream decision reads
  them.
-/

/-- Lower-case a string, as Python `str.lower()` on the ASCII text handled by
the analyzer, producing the character list the matchers work on. -/
def lc (s : String) : List Char := s.toList.map Char.toLower

/-- Substring test: `subIn needle hay` is true iff `needle` occurs contiguously
in `hay`; this is Python `needle in hay` on strings. -/
def subIn (needle : List Char) : List Char → Bool
  | [] => needle.isEmpty
  | c :: rest => needle.isPrefixOf (c :: rest) || subIn needle rest

/-- Fragments of the fixed regular expressions used by the source: a literal
character, a word boundary, whitespace (one or more / zero or more), a greedy
dot-star, and an optional character. -/
inductive Rx where
  | lit (c : Char)
  | wb
  | wsPlus
  | wsStar
  | anyStar
  | optChar (c : Char)

/-- Word characters for the word-boundary assertion, as in Python regex. -/
def isWordChar (c : Char) : Bool := c.isAlphanum || c == '_'

/-- Whitespace characters recognised by the Python regex class `\s`. -/
def isSpaceChar (c : Char) : Bool :=
  c == ' ' || c == '\t' || c == '\n' || c == '\r' || c == '\x0b' || c == '\x0c'

/-- Word-boundary test between the previous character (none at the start of the
string) and the rest of the string. -/
def atBoundary (prev : Option Char) (s : List Char) : Bool :=
  let pw := match prev with | some c => isWordChar c | none => false
  let nw := match s with | c :: _ => isWordChar c | [] => false
  pw != nw

/-- Backtracking matcher: does the pattern match a prefix of `s`, given the
character just before the current position. -/
def matchHere : List Rx → Option Char → List Char → Bool
  | [], _, _ => true
  | Rx.wb :: ps, prev, s => atBoundary prev s && matchHere ps prev s
  | Rx.lit _ :: _, _, [] => false
  | Rx.lit c :: ps, _, x :: rest => x == c && matchHere ps (some x) rest
  | Rx.optChar _ :: ps, prev, [] => matchHere ps prev []
  | Rx.optChar c :: ps, prev, x :: rest =>
      (x == c && matchHere ps (some x) rest) || matchHere ps prev (x :: rest)
  | Rx.wsPlus :: _, _, [] => false
  | Rx.wsPlus :: ps, _, x :: rest => isSpaceChar x && matchHere (Rx.wsStar :: ps) (some x) rest
  | Rx.wsStar :: ps, prev, [] => matchHere ps prev []
  | Rx.wsStar :: ps, prev, x :: rest =>
      matchHere ps prev (x :: rest) ||
      (isSpaceChar x && matchHere (Rx.wsStar :: ps) (some x) rest)
  | Rx.anyStar :: ps, prev, [] => matchHere ps prev []
  | Rx.anyStar :: ps, prev, x :: rest =>
      matchHere ps prev (x :: rest) ||
      (!(x == '\n') && matchHere (Rx.anyStar :: ps) (some x) rest)
  termination_by ps _ s => (s.length, ps.length)

/-- Try the pattern at every start position, tracking the previous character. -/
def searchAux (ps : List Rx) (prev : Option Char) : List Char → Bool
  | [] => matchHere ps prev []
  | c :: rest => matchHere ps prev (c :: rest) || searchAux ps (some c) rest

/-- Python `re.search(pattern, s) is not None` for the pattern subset above. -/
def rxSearch (ps : List Rx) (s : List Char) : Bool := searchAux ps none s

/-- Pattern `\bw\b` for a literal word `w` (spaces inside `w` stay literal). -/
def wordPat (w : String) : List Rx := [Rx.wb] ++ w.toList.map Rx.lit ++ [Rx.wb]

/-- Pattern `\ba\s+b\b` for two literal words. -/
def twoWordPat (a b : String) : List Rx :=
  [Rx.wb] ++ a.toList.map Rx.lit ++ [Rx.wsPlus] ++ b.toList.map Rx.lit ++ [Rx.wb]

/-- Pattern `\bgit\s+v\b` for a git verb `v`, as in `classify_git_operations`. -/
def gitVerbPat (v : String) : List Rx := twoWordPat "git" v

/-- Result of `classify_git_operations`; field names keep the dictionary keys of
the source. -/
structure GitOps where
  has_commit : Bool
  has_push : Bool
  has_add : Bool
  read_only : Bool
  has_failed_commit : Bool
  commit_count : Nat
  git_commands : List String
  deriving DecidableEq

/-- Read-only git verb patterns of `classify_git_operations` (nine patterns). -/
def read_only_patterns : List (List Rx) :=
  [gitVerbPat "status", gitVerbPat "log", gitVerbPat "diff", gitVerbPat "branch",
   gitVerbPat "show", gitVerbPat "remote", gitVerbPat "fetch", gitVerbPat "ls-files",
   gitVerbPat "rev-parse"]

/-- One collected git command matches some read-only verb pattern. -/
def isReadOnlyGitCommand (cmd : String) : Bool :=
  read_only_patterns.any (fun p => rxSearch p (lc cmd))

/-- Embedding of `classify_git_operations` (analyze_sessions.py, lines
143-221).  The source's single loop is expressed by `filter`/`any` over the
same predicates; the loop with early exit that computes `read_only` is the
`all` over the collected git commands, and `read_only` is forced to false when
no git command was collected. -/
def classify_git_operations (commands : List String) : GitOps :=
  let git_commands := commands.filter (fun cmd => subIn ("git".toList) (lc cmd))
  let commitCmds := git_commands.filter (fun cmd => rxSearch (gitVerbPat "commit") (lc cmd))
  let has_failed_commit := commitCmds.any (fun cmd =>
    subIn ("error".toList) (lc cmd) || subIn ("fail".toList) (lc cmd) ||
    subIn ("abort".toList) (lc cmd))
  let read_only0 := git_commands.all isReadOnlyGitCommand
  { has_commit := !commitCmds.isEmpty
    has_push := git_commands.any (fun cmd => rxSearch (gitVerbPat "push") (lc cmd))
    has_add := git_commands.any (fun cmd => rxSearch (gitVerbPat "add") (lc cmd))
    read_only := if git_commands.isEmpty then false else read_only0
    has_failed_commit := has_failed_commit
    commit_count := commitCmds.length
    git_commands := git_commands }

/-- Embedding of `classify_session_type` (lines 251-298).  The set of read
tools computed by the source is never used and is omitted; the write-tool
intersection check is kept. -/
def classify_session_type (duration_minutes : ℚ) (tool_calls : Nat)
    (has_edits : Bool) (tools_used : List String) : String :=
  if has_edits then "work"
  else if 5 ≤ duration_minutes then "work"
  else if 10 ≤ tool_calls then "work"
  else if tools_used.any (fun t => ["Edit", "Write", "NotebookEdit"].contains t) then "work"
  else "lookup"

/-- Keyword list of the `bug_fix` branch of `classify_task_type` (lines
380-383); `\x27` is the apostrophe of "doesn't work". -/
def bugFixKeywords : List String :=
  ["bug", "fix", "error", "issue", "broken", "doesn\x27t work", "not working",
   "failing", "crash", "exception", "resolve", "patch"]

/-- Keyword list of the `testing` branch (lines 387-390). -/
def testingKeywords : List String :=
  ["test", "spec", "e2e", "unit test", "integration test", "coverage",
   "assertion", "mock", "stub", "jest", "pytest", "testing"]

/-- Keyword list of the `config` branch (lines 394-398). -/
def configKeywords : List String :=
  ["config", "setup", "install", "terraform", "infra", "infrastructure",
   "deploy", "ci", "cd", "pipeline", "docker", "kubernetes", "k8s",
   "environment", "env", "yaml", "json config"]

/-- Keyword list of the `review` branch (lines 402-405). -/
def reviewKeywords : List String :=
  ["review", "pr", "pull request", "code review", "feedback",
   "approve", "merge", "diff", "changes"]

/-- Phrase list of the `exploration` branch (lines 409-412), checked before
`debug` in the source. -/
def explorationKeywords : List String :=
  ["explain", "what is", "how does", "document", "learn",
   "describe", "tell me about", "help me understand"]

/-- Keyword list of the `debug` branch (lines 416-419). -/
def debugKeywords : List String :=
  ["debug", "investigate", "why", "understand", "trace", "log",
   "what\x27s happening", "look into", "figure out", "diagnose"]

/-- Keyword list of the `refactor` branch (lines 423-426). -/
def refactorKeywords : List String :=
  ["refactor", "clean", "improve", "optimize", "restructure",
   "reorganize", "simplify", "rename", "extract", "consolidate"]

/-- Keyword list of the `feature` branch (lines 430-433). -/
def featureKeywords : List String :=
  ["add", "create", "implement", "new feature", "build", "introduce",
   "develop", "make", "generate", "design"]

/-- Keyword list of the `update` branch (lines 437-440). -/
def updateKeywords : List String :=
  ["update", "change", "modify", "edit", "adjust", "tweak",
   "alter", "revise", "enhance", "upgrade", "migrate"]

/-- Keyword list of the `lookup` branch (lines 444-447). -/
def lookupKeywords : List String :=
  ["find", "search", "locate", "where", "show me", "list",
   "get", "fetch", "check", "verify", "validate", "confirm"]

/-- Joined, lower-cased prompt text: `" ".join(str(p) for p in prompts).lower()`. -/
def joinedPromptText (prompts : List String) : List Char :=
  lc (String.intercalate " " prompts)

/-- Some keyword of `kws` occurs as a substring of the joined prompt text. -/
def anyKeywordIn (kws : List String) (all_text : List Char) : Bool :=
  kws.any (fun w => subIn w.toList all_text)

/-- Embedding of `classify_task_type` (lines 344-454).  Eleven categories are
tried in the fixed source order; the lower-cased command text computed by the
source is never read and is omitted.  The optional session-shape arguments
reproduce Python truthiness: a missing duration disables `is_likely_lookup`,
`not has_edits` is true when `has_edits` is `None`, and a missing tool-call
count is treated as 0. -/
def classify_task_type (prompts : List String) (_commands : List String)
    (_tools : List String) (duration : Option ℚ) (tool_calls : Option Nat)
    (has_edits : Option Bool) : String :=
  let all_text := joinedPromptText prompts
  let is_likely_lookup :=
    duration.isSome && decide ((duration.getD 0) < 5) &&
    (match has_edits with | some b => !b | none => true) &&
    decide ((tool_calls.getD 0) < 10)
  if anyKeywordIn bugFixKeywords all_text then "bug_fix"
  else if anyKeywordIn testingKeywords all_text then "testing"
  else if anyKeywordIn configKeywords all_text then "config"
  else if anyKeywordIn reviewKeywords all_text then "review"
  else if anyKeywordIn explorationKeywords all_text then "exploration"
  else if anyKeywordIn debugKeywords all_text then "debug"
  else if anyKeywordIn refactorKeywords all_text then "refactor"
  else if anyKeywordIn featureKeywords all_text then "feature"
  else if anyKeywordIn updateKeywords all_text then "update"
  else if anyKeywordIn lookupKeywords all_text then "lookup"
  else if is_likely_lookup then "lookup"
  else "general"

/-- One failure signal `{type, severity}` as produced by
`detect_failure_signals`; the free-text description and evidence carried by the
source dictionaries are presentation-only and omitted. -/
structure FailureSignal where
  type : String
  severity : Nat
  deriving DecidableEq

/-- Error patterns scanned over commands (lines 856-860); eleven word
patterns, two of which contain a literal space. -/
def error_patterns : List (List Rx) :=
  [wordPat "error", wordPat "failed", wordPat "failure", wordPat "exception",
   wordPat "crash", wordPat "timeout", wordPat "denied", wordPat "forbidden",
   wordPat "not found", wordPat "cannot", wordPat "unable to"]

/-- Frustration phrase patterns scanned over prompts (lines 922-927).
`Char.ofNat 39` is the apostrophe of `doesn\'?t`. -/
def frustration_patterns : List (List Rx) :=
  [[Rx.wb] ++ "never".toList.map Rx.lit ++ [Rx.wsStar] ++ "mind".toList.map Rx.lit ++ [Rx.wb],
   [Rx.wb] ++ "forget".toList.map Rx.lit ++ [Rx.wsStar] ++ "it".toList.map Rx.lit ++ [Rx.wb],
   [Rx.wb] ++ "give".toList.map Rx.lit ++ [Rx.wsStar] ++ "up".toList.map Rx.lit ++ [Rx.wb],
   [Rx.wb] ++ "doesn".toList.map Rx.lit ++ [Rx.optChar (Char.ofNat 39), Rx.lit 't', Rx.wsStar]
     ++ "work".toList.map Rx.lit ++ [Rx.wb],
   [Rx.wb] ++ "not".toList.map Rx.lit ++ [Rx.wsStar] ++ "working".toList.map Rx.lit ++ [Rx.wb],
   wordPat "stop", wordPat "cancel", wordPat "abort", wordPat "wrong", wordPat "broken",
   wordPat "undo", wordPat "revert",
   [Rx.wb] ++ "try".toList.map Rx.lit ++ [Rx.wsStar] ++ "again".toList.map Rx.lit ++ [Rx.wb],
   [Rx.wb] ++ "still".toList.map Rx.lit ++ [Rx.wsStar] ++ "broken".toList.map Rx.lit ++ [Rx.wb]]

/-- Session record consumed by `analyze_session`, after `normalize_session`:
the fields of `metadata`, `statistics`, `task_context` and `_original` that the
analysis reads.  `durationMinutes` is `None` or an exact rational;
`filesTouched` is the length of the `files_touched` list; `origIssues` is the
`_original["issues"]` list (empty when absent). -/
structure Session where
  priorOutcome : Option String
  durationMinutes : Option ℚ
  userMessages : Nat
  assistantMessages : Nat
  totalTurns : Nat
  toolCallCount : Nat
  toolsUsed : List String
  initialPrompts : List String
  commandsSample : List String
  filesTouched : Nat
  origTaskType : Option String
  origIssues : List String

/-- The list of failure signals contains one with the given type tag. -/
def hasSignalType (signals : List FailureSignal) (t : String) : Bool :=
  signals.any (fun g => g.type == t)

/-- Embedding of `detect_failure_signals` (lines 840-956).  Signals are listed
in the source's append order; ratio tests `tool_count / user_msgs > 15` are the
exact integer form `15 * user_msgs < tool_count`.  The `or 0` on the duration
lookup maps a missing duration to 0. -/
def detect_failure_signals (s : Session) : List FailureSignal :=
  let commands := s.commandsSample
  let tool_count := s.toolCallCount
  let user_msgs := s.userMessages
  let duration := s.durationMinutes.getD 0
  let error_commands := commands.filter
    (fun cmd => error_patterns.any (fun p => rxSearch p (lc cmd)))
  let has_reads := ["Read", "Grep", "Glob"].any (fun t => s.toolsUsed.contains t)
  let has_edits := ["Edit", "Write"].any (fun t => s.toolsUsed.contains t)
  let git_ops := classify_git_operations commands
  let frustration_found := s.initialPrompts.filter
    (fun p => frustration_patterns.any (fun pat => rxSearch pat (lc p)))
  (if error_commands ≠ [] then
      [⟨"error_in_commands", min 3 error_commands.length⟩] else [])
  ++ (if 0 < user_msgs ∧ 0 < tool_count ∧ 15 * user_msgs < tool_count then
      [⟨"high_retry_ratio", 2⟩] else [])
  ++ (if duration < 2 ∧ 5 < tool_count then [⟨"quick_abandonment", 2⟩] else [])
  ++ (if has_reads ∧ ¬has_edits ∧ 10 < tool_count then [⟨"read_without_edit", 1⟩] else [])
  ++ (if git_ops.has_failed_commit then [⟨"failed_git_commit", 2⟩] else [])
  ++ (if frustration_found ≠ [] then [⟨"user_frustration", 2⟩] else [])
  ++ (if 5 < duration ∧ ¬has_edits ∧ ¬git_ops.has_commit ∧ 10 < tool_count then
      [⟨"no_tangible_output", 1⟩] else [])

/-- Test-execution command patterns (lines 494 and 1072). -/
def test_patterns : List (List Rx) :=
  [wordPat "test", wordPat "pytest", wordPat "jest", twoWordPat "npm" "test",
   twoWordPat "yarn" "test",
   [Rx.wb] ++ "gradle".toList.map Rx.lit ++ [Rx.anyStar] ++ "test".toList.map Rx.lit ++ [Rx.wb]]

/-- Some command matches a test pattern (lines 495-498 and 1073-1076). -/
def hasTestRunIn (commands : List String) : Bool :=
  commands.any (fun cmd => test_patterns.any (fun pat => rxSearch pat (lc cmd)))

/-- Build command patterns (line 501); the `has_build` flag they feed is
computed by the source but never read afterwards. -/
def build_patterns : List (List Rx) :=
  [wordPat "build", wordPat "compile", twoWordPat "npm" "run", wordPat "yarn",
   wordPat "gradle", wordPat "make"]

/-- Result of `evaluate_task_completion`; field names keep the dictionary keys
of the source. -/
structure CompletionEval where
  completed : Bool
  completion_type : String
  criteria_met : List String
  criteria_missing : List String
  failure_severity : Nat
  deriving DecidableEq

/-- Type-specific verdict of `evaluate_task_completion` (lines 511-615), before
the failure-signal downgrade: the completed flag, the criteria met and the
criteria missing, for each task-type branch in source order (`bug_fix`,
`feature`, `refactor`, `debug`, `testing`, `config`, `exploration`, and the
`general` fallback for every other task type). -/
def typeSpecificEval (task_type : String) (has_edits has_reads : Bool)
    (files_touched : Nat) (git_ops : GitOps) (has_test_run : Bool)
    (tools_used : List String) (duration : ℚ) (user_msgs : Nat) :
    Bool × List String × List String :=
  if task_type = "bug_fix" then
    (has_edits && (has_test_run || git_ops.has_commit),
     (if has_edits then ["has_edits"] else [])
       ++ (if has_test_run || git_ops.has_commit then ["has_verification"] else []),
     (if has_edits then [] else ["has_edits"])
       ++ (if has_test_run || git_ops.has_commit then []
           else ["has_verification (test or commit)"]))
  else if task_type = "feature" then
    (has_edits && decide (0 < files_touched),
     (if has_edits then ["has_edits"] else [])
       ++ (if 0 < files_touched then ["files_touched"] else []),
     (if has_edits then [] else ["has_edits"])
       ++ (if 0 < files_touched then [] else ["files_touched"]))
  else if task_type = "refactor" then
    (has_edits && decide (1 < files_touched),
     (if has_edits then ["has_edits"] else [])
       ++ (if 1 < files_touched then ["multiple_files_touched"] else []),
     (if has_edits then [] else ["has_edits"])
       ++ (if 1 < files_touched then [] else ["multiple_files_touched (>1)"]))
  else if task_type = "debug" then
    (has_reads && decide (5 < duration) && decide (1 < user_msgs),
     (if has_reads then ["has_reads"] else [])
       ++ (if 5 < duration then ["sufficient_investigation_time"] else []),
     (if 5 < duration then [] else ["sufficient_investigation_time (>5 min)"]))
  else if task_type = "testing" then
    (has_test_run,
     (if has_test_run then ["test_execution"] else [])
       ++ (if has_edits then ["has_edits"] else []),
     (if has_test_run then [] else ["test_execution"]))
  else if task_type = "config" then
    (has_edits || tools_used.contains "Bash",
     (if has_edits then ["has_edits"] else [])
       ++ (if tools_used.contains "Bash" then ["bash_execution"] else []),
     [])
  else if task_type = "exploration" then
    (has_reads && decide (1 < user_msgs),
     (if has_reads then ["has_reads"] else [])
       ++ (if 1 < user_msgs then ["user_interaction"] else []),
     (if has_reads then [] else ["has_reads"])
       ++ (if 1 < user_msgs then [] else ["user_interaction (>1 message)"]))
  else
    (has_edits || (decide (0 < files_touched) && (git_ops.has_commit || git_ops.has_push)),
     (if has_edits then ["has_edits"] else [])
       ++ (if 0 < files_touched then ["files_touched"] else [])
       ++ (if git_ops.has_commit || git_ops.has_push then ["git_changes"] else []),
     [])

/-- Embedding of `evaluate_task_completion` (lines 457-636).  The type-specific
verdict is computed by `typeSpecificEval`; then, exactly as in lines 617-628, a
failure signal of severity at least 2 downgrades a nominal pass and appends
`failure_signals_detected`, and the completion type is derived from the final
flag and the criteria counts.  The `has_build` flag of line 502 is dead code
and not bound here. -/
def evaluate_task_completion (task_type : String) (has_edits has_reads : Bool)
    (files_touched : Nat) (git_ops : GitOps) (commands : List String)
    (tools_used : List String) (duration : ℚ) (user_msgs : Nat)
    (failure_signals : List FailureSignal) : CompletionEval :=
  let has_test_run := hasTestRunIn commands
  let total_failure_severity := (failure_signals.map (fun g => g.severity)).sum
  let has_high_severity_failure := failure_signals.any (fun g => 2 ≤ g.severity)
  let t := typeSpecificEval task_type has_edits has_reads files_touched git_ops
    has_test_run tools_used duration user_msgs
  let completed := t.1 && !has_high_severity_failure
  let criteria_met := t.2.1
  let criteria_missing :=
    if t.1 && has_high_severity_failure then t.2.2 ++ ["failure_signals_detected"]
    else t.2.2
  { completed := completed
    completion_type :=
      if completed then "completed"
      else if 0 < criteria_met.length ∧ criteria_missing.length < criteria_met.length then
        "partially_completed"
      else "not_completed"
    criteria_met := criteria_met
    criteria_missing := criteria_missing
    failure_severity := total_failure_severity }

/-- Result of `calculate_completion_confidence`; field names keep the
dictionary keys of the source. -/
structure ConfidenceResult where
  score : Int
  positive_signals : List (String × Int)
  negative_signals : List (String × Int)
  assessment : String
  deriving DecidableEq

/-- A conditional signal entry: the singleton `[(name, delta)]` when the guard
holds, else nothing.  Each Python `signals.append((name, delta))` under an `if`
becomes one such chunk. -/
def optSig (c : Prop) [Decidable c] (name : String) (delta : Int) : List (String × Int) :=
  if c then [(name, delta)] else []

/-- Error-pattern penalty of lines 722-726:
`min(20, sum(s.get("severity", 1) * 5 for s in error_signals))`, over the
failure signals whose type is `error_in_commands` (severity is always present
on the signals built by the detector). -/
def errorPenalty (failure_signals : List FailureSignal) : Int :=
  min 20 (((failure_signals.filter (fun g => g.type == "error_in_commands")).map
    (fun g => (g.severity : Int) * 5)).sum)

/-- Duration-appropriateness bonus of lines 707-712 (`if` / `elif`): +5 for an
exploration longer than 3 minutes, else +5 for bug-fix/feature/refactor work
longer than 10 minutes. -/
def durationSignals (task_type : String) (duration : ℚ) : List (String × Int) :=
  if task_type = "exploration" ∧ 3 < duration then [("exploration_time", 5)]
  else if (task_type = "bug_fix" ∨ task_type = "feature" ∨ task_type = "refactor")
      ∧ 10 < duration then [("sufficient_work_time", 5)]
  else []

/-- Task-type specific adjustment of lines 757-765 (`if` / `elif`): +10 for
exploration with reads and no edits, else +10 for debug with reads and more
than 5 minutes. -/
def taskAdjSignals (task_type : String) (has_reads has_edits : Bool)
    (duration : ℚ) : List (String × Int) :=
  if task_type = "exploration" ∧ has_reads = true ∧ has_edits = false then
    [("exploration_reads_ok", 10)]
  else if task_type = "debug" ∧ has_reads = true ∧ 5 < duration then
    [("debug_investigation", 10)]
  else []

/-- Positive signal list of `calculate_completion_confidence`, in the source's
append order (lines 676-717, 757-765, 767-773). -/
def posSignals (task_type : String) (has_edits has_reads : Bool)
    (files_touched : Nat) (git_ops : GitOps) (has_test_run : Bool)
    (duration : ℚ) (user_msgs : Nat) (met miss : Nat) : List (String × Int) :=
  optSig (has_edits = true) "has_edits" 15
  ++ optSig (git_ops.has_commit = true ∧ git_ops.has_failed_commit = false)
      "successful_commit" 20
  ++ optSig (git_ops.has_push = true) "git_push" 10
  ++ optSig (has_test_run = true) "tests_ran" 15
  ++ optSig (0 < files_touched) "files_touched" 10
  ++ optSig (0 < files_touched ∧ 3 < files_touched) "multiple_files" 5
  ++ durationSignals task_type duration
  ++ optSig (2 < user_msgs) "user_engagement" 5
  ++ taskAdjSignals task_type has_reads has_edits duration
  ++ optSig (miss < met) "criteria_met" 10

/-- Negative signal list of `calculate_completion_confidence`, in the source's
append order (lines 719-755, 774-776). -/
def negSignals (git_ops : GitOps) (failure_signals : List FailureSignal)
    (met miss : Nat) : List (String × Int) :=
  optSig ((failure_signals.filter (fun g => g.type == "error_in_commands")) ≠ [])
      "errors_detected" (-(errorPenalty failure_signals))
  ++ optSig (git_ops.has_failed_commit = true) "failed_commit" (-15)
  ++ optSig (hasSignalType failure_signals "high_retry_ratio" = true)
      "high_retry_ratio" (-15)
  ++ optSig (hasSignalType failure_signals "user_frustration" = true)
      "user_frustration" (-20)
  ++ optSig (hasSignalType failure_signals "quick_abandonment" = true)
      "quick_abandonment" (-20)
  ++ optSig (hasSignalType failure_signals "no_tangible_output" = true)
      "no_tangible_output" (-10)
  ++ optSig (met < miss) "criteria_missing" (-10)

/-- Raw point total of `calculate_completion_confidence` before clamping: base
50 plus every delta whose guard fires, with the guards of `posSignals` and
`negSignals` (the source adds each delta and appends the signal entry under one
and the same `if`). -/
def confScoreRaw (task_type : String) (has_edits has_reads : Bool)
    (files_touched : Nat) (git_ops : GitOps) (has_test_run : Bool)
    (failure_signals : List FailureSignal) (duration : ℚ) (user_msgs : Nat)
    (met miss : Nat) : Int :=
  50 + (if has_edits = true then 15 else 0)
  + (if git_ops.has_commit = true ∧ git_ops.has_failed_commit = false then 20 else 0)
  + (if git_ops.has_push = true then 10 else 0)
  + (if has_test_run = true then 15 else 0)
  + (if 0 < files_touched then 10 else 0)
  + (if 0 < files_touched ∧ 3 < files_touched then 5 else 0)
  + (if task_type = "exploration" ∧ 3 < duration then 5
     else if (task_type = "bug_fix" ∨ task_type = "feature" ∨ task_type = "refactor")
         ∧ 10 < duration then 5
     else 0)
  + (if 2 < user_msgs then 5 else 0)
  - (if (failure_signals.filter (fun g => g.type == "error_in_commands")) ≠ [] then
      errorPenalty failure_signals else 0)
  - (if git_ops.has_failed_commit = true then 15 else 0)
  - (if hasSignalType failure_signals "high_retry_ratio" = true then 15 else 0)
  - (if hasSignalType failure_signals "user_frustration" = true then 20 else 0)
  - (if hasSignalType failure_signals "quick_abandonment" = true then 20 else 0)
  - (if hasSignalType failure_signals "no_tangible_output" = true then 10 else 0)
  + (if task_type = "exploration" ∧ has_reads = true ∧ has_edits = false then 10
     else if task_type = "debug" ∧ has_reads = true ∧ 5 < duration then 10
     else 0)
  + (if miss < met then 10 else 0)
  - (if met < miss then 10 else 0)

/-- Clamp of line 779: `score = max(0, min(100, score))`. -/
def clampScore (x : Int) : Int := max 0 (min 100 x)

/-- Assessment of lines 781-787 from the clamped score. -/
def assessOf (score : Int) : String :=
  if 70 ≤ score then "high" else if 40 ≤ score then "medium" else "low"

/-- Embedding of `calculate_completion_confidence` (lines 639-794). -/
def calculate_completion_confidence (task_type : String)
    (has_edits has_reads : Bool) (files_touched : Nat) (git_ops : GitOps)
    (has_test_run : Bool) (failure_signals : List FailureSignal) (duration : ℚ)
    (user_msgs : Nat) (completion_eval : CompletionEval) : ConfidenceResult :=
  let met := completion_eval.criteria_met.length
  let miss := completion_eval.criteria_missing.length
  let score := clampScore (confScoreRaw task_type has_edits has_reads
    files_touched git_ops has_test_run failure_signals duration user_msgs met miss)
  { score := score
    positive_signals := posSignals task_type has_edits has_reads files_touched
      git_ops has_test_run duration user_msgs met miss
    negative_signals := negSignals git_ops failure_signals met miss
    assessment := assessOf score }

/-- Threshold constant of line 798. -/
def COMPLETION_CONFIDENCE_THRESHOLD : Int := 60

/-- Embedding of `detect_issues` (lines 801-837), keeping only the type tags of
the issue dictionaries (descriptions and evidence are presentation-only).  One
`command_error` issue is appended per command containing `error` or `fail`;
`high_tool_usage` uses the exact integer form of `tool_count / user_msgs > 10`;
`rapid_interactions` fires for a short session with many turns.  The source
reads the duration here without the `or 0` guard used elsewhere (a `None`
duration would raise in Python); a missing duration is modelled as 0. -/
def detect_issues (s : Session) : List String :=
  ((s.commandsSample.filter (fun cmd =>
      subIn ("error".toList) (lc cmd) || subIn ("fail".toList) (lc cmd))).map
    (fun _ => "command_error"))
  ++ (if 0 < s.userMessages ∧ 10 * s.userMessages < s.toolCallCount then
      ["high_tool_usage"] else [])
  ++ (if (s.durationMinutes.getD 0) < 5 ∧ 20 < s.totalTurns then
      ["rapid_interactions"] else [])

/-- Duration used by `analyze_session` (line 1043):
`metadata.get("duration_minutes", 0) or 0`. -/
def sessionDuration (s : Session) : ℚ := s.durationMinutes.getD 0

/-- Line 1039: `has_edits = "Edit" in tools_used or "Write" in tools_used`.
`NotebookEdit` is deliberately reproduced as absent from this check. -/
def sessionHasEdits (s : Session) : Bool :=
  s.toolsUsed.contains "Edit" || s.toolsUsed.contains "Write"

/-- Line 1040: `has_reads = any(t in tools_used for t in ["Read", "Grep", "Glob"])`. -/
def sessionHasReads (s : Session) : Bool :=
  ["Read", "Grep", "Glob"].any (fun t => s.toolsUsed.contains t)

/-- Lines 1046-1049: the externally supplied task type wins when truthy (a
non-empty string), otherwise `classify_task_type` runs with the session
characteristics. -/
def sessionTaskType (s : Session) : String :=
  match s.origTaskType with
  | some t =>
      if t = "" then
        classify_task_type s.initialPrompts s.commandsSample s.toolsUsed
          (some (sessionDuration s)) (some s.toolCallCount) (some (sessionHasEdits s))
      else t
  | none =>
      classify_task_type s.initialPrompts s.commandsSample s.toolsUsed
        (some (sessionDuration s)) (some s.toolCallCount) (some (sessionHasEdits s))

/-- Lines 1052-1055: externally reported issues win when present (each mapped
to a `reported_issue` tag), otherwise `detect_issues` runs. -/
def sessionIssues (s : Session) : List String :=
  if s.origIssues ≠ [] then s.origIssues.map (fun _ => "reported_issue")
  else detect_issues s

/-- Completion evaluation of lines 1079-1090. -/
def sessionCompletionEval (s : Session) : CompletionEval :=
  evaluate_task_completion (sessionTaskType s) (sessionHasEdits s)
    (sessionHasReads s) s.filesTouched (classify_git_operations s.commandsSample)
    s.commandsSample s.toolsUsed (sessionDuration s) s.userMessages
    (detect_failure_signals s)

/-- Confidence computation of lines 1093-1104. -/
def sessionConfidence (s : Session) : ConfidenceResult :=
  calculate_completion_confidence (sessionTaskType s) (sessionHasEdits s)
    (sessionHasReads s) s.filesTouched (classify_git_operations s.commandsSample)
    (hasTestRunIn s.commandsSample) (detect_failure_signals s) (sessionDuration s)
    s.userMessages (sessionCompletionEval s)

/-- Python truthiness of `metadata.get("outcome", None)` at line 1108: an
authoritative prior outcome is a present, non-empty string. -/
def hasAuthoritativeOutcome (s : Session) : Bool :=
  match s.priorOutcome with
  | some p => !(p == "")
  | none => false

/-- Legacy-outcome remapping of lines 1109-1126: a prior `completed` splits on
detected issues, a prior `had_issues` splits on abandonment/frustration signals
and then on the evaluator's completed flag, and any other prior value passes
through unchanged. -/
def mapPriorOutcome (p : String) (issues : List String)
    (failure_signals : List FailureSignal) (eval_completed : Bool) : String :=
  if p = "completed" then
    if issues ≠ [] then "completed_with_issues" else "completed"
  else if p = "had_issues" then
    if failure_signals.any (fun g =>
        g.type == "quick_abandonment" || g.type == "user_frustration") then "abandoned"
    else if eval_completed then "completed_with_issues" else "partially_completed"
  else p

/-- Fresh outcome ladder of lines 1128-1166, evaluated top to bottom with
first-match-wins semantics. -/
def sessionFreshOutcome (s : Session) : String :=
  let duration := sessionDuration s
  let tool_calls := s.toolCallCount
  let user_msgs := s.userMessages
  let task_type := sessionTaskType s
  let has_reads := sessionHasReads s
  let failure_signals := detect_failure_signals s
  let session_type := classify_session_type duration tool_calls (sessionHasEdits s) s.toolsUsed
  let has_frustration := hasSignalType failure_signals "user_frustration"
  if COMPLETION_CONFIDENCE_THRESHOLD ≤ (sessionConfidence s).score then
    if sessionIssues s ≠ [] then "completed_with_issues" else "completed"
  else if task_type = "exploration" ∧ has_reads = true ∧ 1 < user_msgs then
    "exploration_complete"
  else if session_type = "lookup" ∧ has_reads = true ∧ 1 ≤ user_msgs
      ∧ has_frustration = false then "lookup_complete"
  else if task_type = "lookup" ∧ has_reads = true ∧ 1 ≤ user_msgs
      ∧ has_frustration = false then "lookup_complete"
  else if hasSignalType failure_signals "quick_abandonment" = true then "abandoned"
  else if has_frustration = true then "abandoned"
  else if (sessionCompletionEval s).completion_type = "partially_completed" then
    "partially_completed"
  else if failure_signals.any (fun g =>
      g.type == "error_in_commands" || g.type == "failed_git_commit") then
    if 10 < duration ∧ 20 < tool_calls then "blocked" else "partially_completed"
  else "unclear"

/-- Outcome of lines 1106-1166: the prior outcome is remapped when truthy,
otherwise the fresh ladder runs. -/
def sessionOutcome (s : Session) : String :=
  if hasAuthoritativeOutcome s then
    mapPriorOutcome (s.priorOutcome.getD "") (sessionIssues s)
      (detect_failure_signals s) (sessionCompletionEval s).completed
  else sessionFreshOutcome s

/-- Analysis result of `analyze_session`: the decision-bearing fields of the
returned dictionary (`task_analysis.task_type`, `task_analysis.outcome`,
`task_analysis.likely_completed`, `completion_analysis.*`, and
`quality_assessment.issues` as type tags).  Presentation fields (primary task
text, topics, JIRA ticket, efficiency ratios, raw samples) are omitted. -/
structure AnalysisResult where
  taskType : String
  outcome : String
  likelyCompleted : Bool
  confidence : ConfidenceResult
  completion : CompletionEval
  failureSignals : List FailureSignal
  gitOps : GitOps
  issues : List String

/-- Embedding of `analyze_session` (lines 1019-1225) restricted to the
decision-bearing outputs.  `likely_completed` is lines 1169-1172: confidence at
least the threshold, or a lookup/exploration outcome. -/
def analyze_session (s : Session) : AnalysisResult :=
  { taskType := sessionTaskType s
    outcome := sessionOutcome s
    likelyCompleted :=
      decide (COMPLETION_CONFIDENCE_THRESHOLD ≤ (sessionConfidence s).score)
      || decide (sessionOutcome s = "lookup_complete")
      || decide (sessionOutcome s = "exploration_complete")
    confidence := sessionConfidence s
    completion := sessionCompletionEval s
    failureSignals := detect_failure_signals s
    gitOps := classify_git_operations s.commandsSample
    issues := sessionIssues s }

/-- The eight outcome labels of the taxonomy (spec section 3). -/
def outcomeLabels : List String :=
  ["completed", "completed_with_issues", "partially_completed",
   "exploration_complete", "lookup_complete", "abandoned", "blocked", "unclear"]

/-- Tiny concrete session with no prior outcome, used by witnesses. -/
def sessNoPrior : Session :=
  { priorOutcome := none, durationMinutes := some 0, userMessages := 1,
    assistantMessages := 0, totalTurns := 1, toolCallCount := 0,
    toolsUsed := [], initialPrompts := [], commandsSample := [],
    filesTouched := 0, origTaskType := none, origIssues := [] }

/-- Tiny concrete session carrying the legacy prior outcome `had_issues`. -/
def sessHadIssues : Session :=
  { priorOutcome := some "had_issues", durationMinutes := some 0,
    userMessages := 1, assistantMessages := 0, totalTurns := 1,
    toolCallCount := 0, toolsUsed := [], initialPrompts := [],
    commandsSample := [], filesTouched := 0, origTaskType := none,
    origIssues := [] }

/-- Tiny concrete session that used only `NotebookEdit` and `Read`. -/
def sessNotebook : Session :=
  { priorOutcome := none, durationMinutes := some 0, userMessages := 1,
    assistantMessages := 0, totalTurns := 1, toolCallCount := 0,
    toolsUsed := ["NotebookEdit", "Read"], initialPrompts := [],
    commandsSample := [], filesTouched := 1, origTaskType := none,
    origIssues := [] }

/-- A member of a conditional signal chunk is its entry. -/
theorem mem_optSig {x : String × Int} {c : Prop} [Decidable c] {n : String}
    {d : Int} (h : x ∈ optSig c n d) : x = (n, d) := by
  unfold optSig at h
  split at h
  · simpa using h
  · simp at h

/-- A member of the duration bonus chunk is one of its two entries. -/
theorem mem_durationSignals {x : String × Int} {t : String} {d : ℚ}
    (h : x ∈ durationSignals t d) :
    x = ("exploration_time", 5) ∨ x = ("sufficient_work_time", 5) := by
  unfold durationSignals at h
  split at h
  · simp at h; exact Or.inl h
  · split at h
    · simp at h; exact Or.inr h
    · simp at h

/-- A member of the task-adjustment chunk is one of its two entries. -/
theorem mem_taskAdjSignals {x : String × Int} {t : String} {hr he : Bool} {d : ℚ}
    (h : x ∈ taskAdjSignals t hr he d) :
    x = ("exploration_reads_ok", 10) ∨ x = ("debug_investigation", 10) := by
  unfold taskAdjSignals at h
  split at h
  · simp at h; exact Or.inl h
  · split at h
    · simp at h; exact Or.inr h
    · simp at h

/-- Clamping and assessment facts used for the confidence claims. -/
theorem clamp_assess (x : Int) :
    0 ≤ clampScore x ∧ clampScore x ≤ 100 ∧
    (assessOf (clampScore x) = "high" ↔ 70 ≤ clampScore x) ∧
    (assessOf (clampScore x) = "medium" ↔ 40 ≤ clampScore x ∧ clampScore x ≤ 69) ∧
    (assessOf (clampScore x) = "low" ↔ clampScore x < 40) := by
  have h0 : 0 ≤ clampScore x := le_max_left 0 _
  have h100 : clampScore x ≤ 100 := max_le (by norm_num) (min_le_left _ _)
  refine ⟨h0, h100, ?_, ?_, ?_⟩ <;> unfold assessOf <;> split_ifs <;>
    simp_all <;> omega

/-- Claim C2: for every input to `calculate_completion_confidence`, the
returned score is an integer in [0, 100], and the assessment is `high` iff the
score is at least 70, `medium` iff it is between 40 and 69, and `low` iff it is
below 40. -/
theorem confidence_score_bounds_and_assessment (task_type : String)
    (has_edits has_reads : Bool) (files_touched : Nat) (git_ops : GitOps)
    (has_test_run : Bool) (failure_signals : List FailureSignal) (duration : ℚ)
    (user_msgs : Nat) (completion_eval : CompletionEval) :
    0 ≤ (calculate_completion_confidence task_type has_edits has_reads
      files_touched git_ops has_test_run failure_signals duration user_msgs
      completion_eval).score ∧
    (calculate_completion_confidence task_type has_edits has_reads files_touched
      git_ops has_test_run failure_signals duration user_msgs completion_eval).score ≤ 100 ∧
    ((calculate_completion_confidence task_type has_edits has_reads files_touched
      git_ops has_test_run failure_signals duration user_msgs completion_eval).assessment
      = "high" ↔
     70 ≤ (calculate_completion_confidence task_type has_edits has_reads
      files_touched git_ops has_test_run failure_signals duration user_msgs
      completion_eval).score) ∧
    ((calculate_completion_confidence task_type has_edits has_reads files_touched
      git_ops has_test_run failure_signals duration user_msgs completion_eval).assessment
      = "medium" ↔
     40 ≤ (calculate_completion_confidence task_type has_edits has_reads
      files_touched git_ops has_test_run failure_signals duration user_msgs
      completion_eval).score ∧
     (calculate_completion_confidence task_type has_edits has_reads files_touched
      git_ops has_test_run failure_signals duration user_msgs completion_eval).score ≤ 69) ∧
    ((calculate_completion_confidence task_type has_edits has_reads files_touched
      git_ops has_test_run failure_signals duration user_msgs completion_eval).assessment
      = "low" ↔
     (calculate_completion_confidence task_type has_edits has_reads files_touched
      git_ops has_test_run failure_signals duration user_msgs completion_eval).score < 40) := by
  simp only [calculate_completion_confidence]
  exact clamp_assess _

/-- Claim C9: the `read_only` flag of `classify_git_operations` is true exactly
when at least one git command was collected and every collected git command
matches a read-only pattern; in particular `read_only` is false whenever
`git_commands` is empty. -/
theorem git_read_only_iff (commands : List String) :
    (classify_git_operations commands).read_only = true ↔
    ((classify_git_operations commands).git_commands ≠ [] ∧
     ∀ cmd ∈ (classify_git_operations commands).git_commands,
       isReadOnlyGitCommand cmd = true) := by
  simp only [classify_git_operations]
  split
  · rename_i hEmpty
    rw [List.isEmpty_iff] at hEmpty
    rw [hEmpty]
    simp
  · rename_i hNE
    rw [List.isEmpty_iff] at hNE
    rw [List.all_eq_true]
    exact ⟨fun h => ⟨hNE, h⟩, fun h => h.2⟩

/-- Claim C3: `classify_task_type` checks `bug_fix` first, so any joined
lower-cased prompt text containing both a bug-fix keyword and a testing
keyword classifies as `bug_fix`, never as `testing`. -/
theorem bugfix_beats_testing (prompts commands tools : List String)
    (duration : Option ℚ) (tool_calls : Option Nat) (has_edits : Option Bool)
    (hb : anyKeywordIn bugFixKeywords (joinedPromptText prompts) = true)
    (_ht : anyKeywordIn testingKeywords (joinedPromptText prompts) = true) :
    classify_task_type prompts commands tools duration tool_calls has_edits
      = "bug_fix" ∧
    classify_task_type prompts commands tools duration tool_calls has_edits
      ≠ "testing" := by
  have h : classify_task_type prompts commands tools duration tool_calls has_edits
      = "bug_fix" := by
    simp only [classify_task_type, hb, if_true]
  exact ⟨h, by rw [h]; decide⟩

/-- Witness for C3 at a concrete prompt containing the keywords "bug", "fix"
and "test". -/
theorem bugfix_beats_testing_witness :
    classify_task_type ["fix the broken test bug"] [] [] none none none
      = "bug_fix" ∧
    classify_task_type ["fix the broken test bug"] [] [] none none none
      ≠ "testing" :=
  bugfix_beats_testing ["fix the broken test bug"] [] [] none none none
    (by decide) (by decide)

/-- Counterexample for C4 as stated: with `task_type = "feature"`,
`has_edits = true` and `files_touched = 1` but a severity-2 failure signal in
the input, the returned completed flag is false although
`has_edits AND files_touched > 0` is true, so the flag does not always equal
the type-specific formula. -/
theorem feature_formula_counterexample :
    (evaluate_task_completion "feature" true true 1
      ⟨false, false, false, false, false, 0, []⟩ [] [] 0 1
      [⟨"user_frustration", 2⟩]).completed
      ≠ (true && decide (0 < (1 : Nat))) := by decide

/-- Claim C4 (amended): in the absence of failure signals of severity at least
2, the completed flag of `evaluate_task_completion` equals
`has_edits AND files_touched > 0` for `feature` and
`has_edits AND files_touched > 1` for `refactor`; in particular one touched
file suffices for `feature` but not for `refactor`. -/
theorem feature_refactor_completion (has_edits has_reads : Bool)
    (files_touched : Nat) (git_ops : GitOps) (commands tools_used : List String)
    (duration : ℚ) (user_msgs : Nat) (failure_signals : List FailureSignal)
    (h : ∀ g ∈ failure_signals, g.severity < 2) :
    (evaluate_task_completion "feature" has_edits has_reads files_touched
      git_ops commands tools_used duration user_msgs failure_signals).completed
      = (has_edits && decide (0 < files_touched)) ∧
    (evaluate_task_completion "refactor" has_edits has_reads files_touched
      git_ops commands tools_used duration user_msgs failure_signals).completed
      = (has_edits && decide (1 < files_touched)) := by
  have hh : failure_signals.any (fun g => decide (2 ≤ g.severity)) = false := by
    cases hE : failure_signals.any (fun g => decide (2 ≤ g.severity)) with
    | false => rfl
    | true =>
        exfalso
        rw [List.any_eq_true] at hE
        obtain ⟨g, hg, hsev⟩ := hE
        have hlt := h g hg
        simp at hsev
        omega
  constructor <;> simp [evaluate_task_completion, typeSpecificEval, hh]

/-- Witness for C4 (amended) at the boundary input `files_touched = 1` with
edits and no failure signals: `feature` completes, `refactor` does not. -/
theorem feature_refactor_completion_witness :
    (evaluate_task_completion "feature" true true 1
      ⟨false, false, false, false, false, 0, []⟩ [] [] 0 1 []).completed
      = (true && decide (0 < (1 : Nat))) ∧
    (evaluate_task_completion "refactor" true true 1
      ⟨false, false, false, false, false, 0, []⟩ [] [] 0 1 []).completed
      = (true && decide (1 < (1 : Nat))) :=
  feature_refactor_completion true true 1
    ⟨false, false, false, false, false, 0, []⟩ [] [] 0 1 [] (by decide)

/-- Claim C5: whenever the type-specific rules return a completed verdict but
some failure signal has severity at least 2, `evaluate_task_completion`
returns completed = false and appends `failure_signals_detected` to the
missing criteria, for every task type. -/
theorem high_severity_overrides_pass (task_type : String)
    (has_edits has_reads : Bool) (files_touched : Nat) (git_ops : GitOps)
    (commands tools_used : List String) (duration : ℚ) (user_msgs : Nat)
    (failure_signals : List FailureSignal)
    (hraw : (typeSpecificEval task_type has_edits has_reads files_touched
      git_ops (hasTestRunIn commands) tools_used duration user_msgs).1 = true)
    (hsig : ∃ g ∈ failure_signals, 2 ≤ g.severity) :
    (evaluate_task_completion task_type has_edits has_reads files_touched
      git_ops commands tools_used duration user_msgs failure_signals).completed
      = false ∧
    "failure_signals_detected" ∈
      (evaluate_task_completion task_type has_edits has_reads files_touched
        git_ops commands tools_used duration user_msgs
        failure_signals).criteria_missing := by
  have hh : failure_signals.any (fun g => decide (2 ≤ g.severity)) = true := by
    rw [List.any_eq_true]
    obtain ⟨g, hg, h2⟩ := hsig
    exact ⟨g, hg, by simpa using h2⟩
  constructor
  · simp [evaluate_task_completion, hh]
  · simp [evaluate_task_completion, hh, hraw]

/-- Witness for C5: a nominally passing `general` session with edits is forced
to incomplete by a severity-2 frustration signal. -/
theorem high_severity_overrides_pass_witness :
    (evaluate_task_completion "general" true true 1
      ⟨false, false, false, false, false, 0, []⟩ [] [] 0 1
      [⟨"user_frustration", 2⟩]).completed = false ∧
    "failure_signals_detected" ∈
      (evaluate_task_completion "general" true true 1
        ⟨false, false, false, false, false, 0, []⟩ [] [] 0 1
        [⟨"user_frustration", 2⟩]).criteria_missing :=
  high_severity_overrides_pass "general" true true 1
    ⟨false, false, false, false, false, 0, []⟩ [] [] 0 1
    [⟨"user_frustration", 2⟩] (by decide) (by decide)

/-- Counterexample for C8 as stated: with exactly one `error_in_commands`
failure signal of severity 2 (as the detector produces for two error-matching
commands), the recorded adjustment is -10, not
`-(min 20 (5 * count)) = -5`. -/
theorem error_penalty_counterexample :
    (calculate_completion_confidence "general" false false 0
      ⟨false, false, false, false, false, 0, []⟩ false
      [⟨"error_in_commands", 2⟩] 0 1
      ⟨false, "not_completed", [], [], 0⟩).negative_signals
      = [("errors_detected", -10)] ∧
    (-10 : Int) ≠ -(min 20 (5 * (1 : Int))) := by decide

/-- Claim C8 (amended): whenever error-type failure signals are present, the
negative adjustment recorded for error patterns in commands equals
`min(20, 5 times the sum of the severities of the error_in_commands signals)`;
the severity-weighted sum replaces the claim's signal count. -/
theorem error_penalty_formula (task_type : String) (has_edits has_reads : Bool)
    (files_touched : Nat) (git_ops : GitOps) (has_test_run : Bool)
    (failure_signals : List FailureSignal) (duration : ℚ) (user_msgs : Nat)
    (completion_eval : CompletionEval)
    (h : (failure_signals.filter (fun g => g.type == "error_in_commands")) ≠ []) :
    ("errors_detected",
      -(min 20 (((failure_signals.filter (fun g =>
          g.type == "error_in_commands")).map
        (fun g => (g.severity : Int) * 5)).sum))) ∈
    (calculate_completion_confidence task_type has_edits has_reads
      files_touched git_ops has_test_run failure_signals duration user_msgs
      completion_eval).negative_signals := by
  simp only [calculate_completion_confidence, negSignals, errorPenalty, optSig,
    List.mem_append]
  rw [if_pos h]
  simp

/-- Witness for C8 (amended): one severity-3 error signal yields the entry
`("errors_detected", -15)`. -/
theorem error_penalty_formula_witness :
    ("errors_detected",
      -(min 20 ((([(⟨"error_in_commands", 3⟩ : FailureSignal)].filter (fun g =>
          g.type == "error_in_commands")).map
        (fun g => (g.severity : Int) * 5)).sum))) ∈
    (calculate_completion_confidence "general" false false 0
      ⟨false, false, false, false, false, 0, []⟩ false
      [⟨"error_in_commands", 3⟩] 0 1
      ⟨false, "not_completed", [], [], 0⟩).negative_signals :=
  error_penalty_formula "general" false false 0
    ⟨false, false, false, false, false, 0, []⟩ false
    [⟨"error_in_commands", 3⟩] 0 1
    ⟨false, "not_completed", [], [], 0⟩ (by decide)

/-- Every branch of the fresh outcome ladder produces one of the eight labels. -/
theorem freshOutcome_mem (s : Session) : sessionFreshOutcome s ∈ outcomeLabels := by
  simp only [sessionFreshOutcome]
  repeat' split
  all_goals decide

/-- Claim C1: for every session record carrying no authoritative prior outcome,
the outcome derived by the fresh path of `analyze_session` is one of the eight
enumerated labels. -/
theorem fresh_outcome_in_taxonomy (s : Session)
    (h : hasAuthoritativeOutcome s = false) :
    (analyze_session s).outcome ∈ outcomeLabels := by
  have hout : (analyze_session s).outcome = sessionFreshOutcome s := by
    simp [analyze_session, sessionOutcome, h]
  rw [hout]
  exact freshOutcome_mem s

/-- Witness for C1 at a concrete session with no prior outcome. -/
theorem fresh_outcome_in_taxonomy_witness :
    hasAuthoritativeOutcome sessNoPrior = false ∧
    (analyze_session sessNoPrior).outcome ∈ outcomeLabels :=
  ⟨by decide, fresh_outcome_in_taxonomy sessNoPrior (by decide)⟩

/-- Claim C6: the `likely_completed` flag of `analyze_session` is true exactly
when the confidence score reaches `COMPLETION_CONFIDENCE_THRESHOLD` (60) or
the resolved outcome is `lookup_complete` or `exploration_complete`. -/
theorem likely_completed_iff (s : Session) :
    (analyze_session s).likelyCompleted = true ↔
    (COMPLETION_CONFIDENCE_THRESHOLD ≤ (analyze_session s).confidence.score ∨
     (analyze_session s).outcome = "lookup_complete" ∨
     (analyze_session s).outcome = "exploration_complete") := by
  simp [analyze_session, or_assoc]

/-- Claim C7: when the session record carries an authoritative prior outcome,
a prior `completed` maps to `completed_with_issues` iff issues were detected, a
prior `had_issues` maps to `abandoned` iff an abandonment/frustration signal is
present and otherwise splits on the evaluator's completed flag, and any other
prior value passes through unchanged. -/
theorem prior_outcome_remap (s : Session) (p : String)
    (hp : s.priorOutcome = some p) (hne : p ≠ "") :
    (p = "completed" →
      (analyze_session s).outcome =
        (if (analyze_session s).issues ≠ [] then "completed_with_issues"
         else "completed")) ∧
    (p = "had_issues" →
      (analyze_session s).outcome =
        (if (analyze_session s).failureSignals.any (fun g =>
            g.type == "quick_abandonment" || g.type == "user_frustration")
         then "abandoned"
         else if (analyze_session s).completion.completed then
           "completed_with_issues"
         else "partially_completed")) ∧
    (p ≠ "completed" → p ≠ "had_issues" → (analyze_session s).outcome = p) := by
  have hauth : hasAuthoritativeOutcome s = true := by
    simp [hasAuthoritativeOutcome, hp, hne]
  have hout : (analyze_session s).outcome =
      mapPriorOutcome p (sessionIssues s) (detect_failure_signals s)
        (sessionCompletionEval s).completed := by
    simp [analyze_session, sessionOutcome, hauth, hp]
  refine ⟨?_, ?_, ?_⟩
  · intro h1
    subst h1
    rw [hout]
    simp [mapPriorOutcome, analyze_session]
  · intro h1
    subst h1
    rw [hout]
    simp [mapPriorOutcome, analyze_session]
  · intro h1 h2
    rw [hout]
    simp [mapPriorOutcome, h1, h2]

/-- Witness for C7 at a concrete session whose prior outcome is `had_issues`. -/
theorem prior_outcome_remap_witness :
    ("had_issues" = "completed" →
      (analyze_session sessHadIssues).outcome =
        (if (analyze_session sessHadIssues).issues ≠ [] then
          "completed_with_issues" else "completed")) ∧
    ("had_issues" = "had_issues" →
      (analyze_session sessHadIssues).outcome =
        (if (analyze_session sessHadIssues).failureSignals.any (fun g =>
            g.type == "quick_abandonment" || g.type == "user_frustration")
         then "abandoned"
         else if (analyze_session sessHadIssues).completion.completed then
           "completed_with_issues"
         else "partially_completed")) ∧
    ("had_issues" ≠ "completed" → "had_issues" ≠ "had_issues" →
      (analyze_session sessHadIssues).outcome = "had_issues") :=
  prior_outcome_remap sessHadIssues "had_issues" (by decide) (by decide)

/-- Without edits, the confidence scorer never records the `has_edits` bonus. -/
theorem hasEdits_bonus_absent (task_type : String) (has_reads : Bool)
    (files_touched : Nat) (git_ops : GitOps) (has_test_run : Bool)
    (duration : ℚ) (user_msgs : Nat) (met miss : Nat) :
    ("has_edits", (15 : Int)) ∉ posSignals task_type false has_reads
      files_touched git_ops has_test_run duration user_msgs met miss := by
  intro hmem
  simp only [posSignals, List.mem_append] at hmem
  rcases hmem with ((((((((h | h) | h) | h) | h) | h) | h) | h) | h) | h
  · revert h
    simp [optSig]
  · exact absurd (mem_optSig h) (by decide)
  · exact absurd (mem_optSig h) (by decide)
  · exact absurd (mem_optSig h) (by decide)
  · exact absurd (mem_optSig h) (by decide)
  · exact absurd (mem_optSig h) (by decide)
  · rcases mem_durationSignals h with h | h <;> revert h <;> decide
  · exact absurd (mem_optSig h) (by decide)
  · rcases mem_taskAdjSignals h with h | h <;> revert h <;> decide
  · exact absurd (mem_optSig h) (by decide)

/-- Without edits, no task-type branch of the completion evaluator records the
`has_edits` criterion as met. -/
theorem hasEdits_criterion_absent (task_type : String) (has_reads : Bool)
    (files_touched : Nat) (git_ops : GitOps) (commands tools_used : List String)
    (duration : ℚ) (user_msgs : Nat) (failure_signals : List FailureSignal) :
    "has_edits" ∉ (evaluate_task_completion task_type false has_reads
      files_touched git_ops commands tools_used duration user_msgs
      failure_signals).criteria_met := by
  simp only [evaluate_task_completion, typeSpecificEval]
  repeat' split
  all_goals simp_all

/-- Claim C10: a session whose tools contain `NotebookEdit` but neither `Edit`
nor `Write` gets `has_edits = false` (so the completion evaluator cannot count
the edit criterion and the +15 confidence bonus is never granted), while
`classify_session_type` calls the same session `work` for any duration and
tool-call count because `NotebookEdit` is in its write-tool set. -/
theorem notebook_edit_disagreement (s : Session) (d : ℚ) (tc : Nat)
    (h1 : s.toolsUsed.contains "NotebookEdit" = true)
    (h2 : s.toolsUsed.contains "Edit" = false)
    (h3 : s.toolsUsed.contains "Write" = false) :
    sessionHasEdits s = false ∧
    classify_session_type d tc (sessionHasEdits s) s.toolsUsed = "work" ∧
    ("has_edits", (15 : Int)) ∉ (analyze_session s).confidence.positive_signals ∧
    "has_edits" ∉ (analyze_session s).completion.criteria_met := by
  have he : sessionHasEdits s = false := by
    unfold sessionHasEdits
    rw [h2, h3]
    rfl
  have hw : s.toolsUsed.any
      (fun t => ["Edit", "Write", "NotebookEdit"].contains t) = true := by
    rw [List.any_eq_true]
    refine ⟨"NotebookEdit", ?_, by decide⟩
    rw [← List.elem_iff]
    exact h1
  refine ⟨he, ?_, ?_, ?_⟩
  · simp only [classify_session_type, he, hw]
    split_ifs <;> rfl
  · have hpos : (analyze_session s).confidence.positive_signals =
        posSignals (sessionTaskType s) false (sessionHasReads s) s.filesTouched
          (classify_git_operations s.commandsSample)
          (hasTestRunIn s.commandsSample) (sessionDuration s) s.userMessages
          (sessionCompletionEval s).criteria_met.length
          (sessionCompletionEval s).criteria_missing.length := by
      simp [analyze_session, sessionConfidence, calculate_completion_confidence, he]
    rw [hpos]
    exact hasEdits_bonus_absent _ _ _ _ _ _ _ _ _
  · have hcomp : (analyze_session s).completion =
        evaluate_task_completion (sessionTaskType s) false (sessionHasReads s)
          s.filesTouched (classify_git_operations s.commandsSample)
          s.commandsSample s.toolsUsed (sessionDuration s) s.userMessages
          (detect_failure_signals s) := by
      simp [analyze_session, sessionCompletionEval, he]
    rw [hcomp]
    exact hasEdits_criterion_absent _ _ _ _ _ _ _ _ _

/-- Witness for C10 at a concrete NotebookEdit-only session. -/
theorem notebook_edit_disagreement_witness :
    sessionHasEdits sessNotebook = false ∧
    classify_session_type 0 0 (sessionHasEdits sessNotebook)
      sessNotebook.toolsUsed = "work" ∧
    ("has_edits", (15 : Int)) ∉
      (analyze_session sessNotebook).confidence.positive_signals ∧
    "has_edits" ∉ (analyze_session sessNotebook).completion.criteria_met :=
  notebook_edit_disagreement sessNotebook 0 0 (by decide) (by decide) (by decide)
